import Mathlib

/-!
Shallow embedding of the perception-to-actuation control loop of the
Adeept RaspClaws robot (files `babyStep.py` and `babyHost.py`).

The OpenCV image operations (decode, grayscale+blur, weighted
accumulation, contour extraction, drawing/encoding) are external
library calls; they are abstracted as a parameter structure `CvOps`
over abstract frame/grayscale/background types.  All control flow,
thresholds, arithmetic and state mutation of the repository's own code
are embedded literally.
-/

/-- Truncation toward zero, the semantics of Python's `int()` applied to a
float/rational value. -/
def pyTrunc (q : ℚ) : ℤ := if 0 ≤ q then ⌊q⌋ else ⌈q⌉

/-- Turn direction of a movement plan (`'right' if turn_angle > 0 else 'left'`,
babyStep.py line 251). -/
inductive Dir where
  | left
  | right
deriving DecidableEq, Repr

/-- Sign factor applied to each per-step angle increment
(`1 if direction == 'left' else -1`, babyStep.py line 297). -/
def dirSign (d : Dir) : ℚ :=
  match d with
  | Dir.left => 1
  | Dir.right => -1

/-- Largest-contour data extracted by the OpenCV pipeline: contour area
(`cv2.contourArea`, a float) and the bounding rectangle `(x, y, w, h)`
(`cv2.boundingRect`). -/
structure Blob where
  area : ℚ
  x : ℕ
  y : ℕ
  w : ℕ
  h : ℕ
deriving DecidableEq, Repr

/-- Abstract interface to the OpenCV image operations used by
`MotionDetector.detect_motion`.  `F` is the type of encoded camera frames,
`G` the type of blurred grayscale images, `A` the type of floating-point
background models. -/
structure CvOps (F G A : Type) where
  /-- Composition of `cv2.imdecode`, `cv2.cvtColor(..., COLOR_BGR2GRAY)` and
  `cv2.GaussianBlur(..., (21, 21), 0)`; `none` models a decode failure
  (babyStep.py lines 57-68). -/
  decodeGrayBlur : F → Option G
  /-- Shape `(width, height)` of the decoded image
  (`display_img.shape[1]`, `display_img.shape[0]`, lines 116-117). -/
  dims : F → ℕ × ℕ
  /-- Seeding of the background model: `gray.copy().astype("float")`
  (lines 72 and 79). -/
  toAvg : G → A
  /-- One step of `cv2.accumulateWeighted(gray, avg, 0.2)` (line 84). -/
  accumulate : G → A → A
  /-- Largest external contour of the thresholded, dilated difference between
  the grayscale frame and the blended model, with its area and bounding box
  (lines 85-101); `none` when no contour is found. -/
  largestBlob : G → A → Option Blob
  /-- Rendering of the bounding box, center marker and center line onto a
  copy of the frame, JPEG-encoded and base64-encoded (lines 112-148). -/
  encodeDetection : F → ℕ × ℕ × ℕ × ℕ → String

/-- Object position record built on a successful detection
(`self.object_position`, babyStep.py lines 140-144). -/
structure Position where
  angle_x : ℚ
  angle_y : ℚ
  distance : ℝ

/-- Detection information record (`self.detection_info`, lines 149-155). -/
structure DetectionInfo where
  timestamp : String
  position : Position
  object_size : ℕ × ℕ
  center : ℕ × ℕ
  frame_center : ℕ × ℕ

/-- Mutable state of a `MotionDetector` instance (babyStep.py lines 29-38;
the camera handle is passed to `detect_motion` as an argument instead). -/
structure DetectorState (F G A : Type) where
  avg : Option A
  last_motion : Option Unit
  motion_detected : Bool
  object_position : Option Position
  last_detection_image : Option String
  detection_info : Option DetectionInfo
  is_moving : Bool
  scan_count : ℕ

/-- Freshly constructed detector (`MotionDetector.__init__`, lines 29-38). -/
def detectorInit (F G A : Type) : DetectorState F G A :=
  { avg := none
    last_motion := none
    motion_detected := false
    object_position := none
    last_detection_image := none
    detection_info := none
    is_moving := false
    scan_count := 0 }

/-- Reset of the background model (`MotionDetector.reset_detection`,
babyStep.py lines 40-45). -/
def reset_detection {F G A : Type} (st : DetectorState F G A) :
    DetectorState F G A :=
  { st with avg := none, last_motion := none, motion_detected := false,
            scan_count := 0 }

/-- Estimated distance from blob area: `1000 / math.sqrt(w * h)`
(babyStep.py line 138). -/
noncomputable def distanceOf (area : ℕ) : ℝ := 1000 / Real.sqrt (area : ℝ)

/-- One call of `MotionDetector.detect_motion` (babyStep.py lines 47-160).
The camera frame (result of `get_frame_safe`) and the current wall-clock
timestamp are passed as arguments.  Returns the updated detector state and
the returned object position (`None` is modeled as `none`). -/
noncomputable def detect_motion {F G A : Type} (ops : CvOps F G A)
    (st : DetectorState F G A) (frame? : Option F) (now : String) :
    DetectorState F G A × Option Position :=
  if st.is_moving then (st, none)
  else
    match frame? with
    | none => (st, none)
    | some frame =>
      match ops.decodeGrayBlur frame with
      | none => (st, none)
      | some gray =>
        match st.avg with
        | none => ({ st with avg := some (ops.toAvg gray) }, none)
        | some avgModel =>
          -- self.scan_count += 1; if self.scan_count > 100: reseed
          if 100 < st.scan_count + 1 then
            ({ st with avg := some (ops.toAvg gray), scan_count := 0 }, none)
          else
            let avg2 := ops.accumulate gray avgModel
            let st1 := { st with avg := some avg2,
                                 scan_count := st.scan_count + 1 }
            match ops.largestBlob gray avg2 with
            | none => (st1, none)
            | some blob =>
              if 2500 < blob.area then
                if 10000 < blob.w * blob.h then
                  let center_x := blob.x + blob.w / 2
                  let center_y := blob.y + blob.h / 2
                  let frame_center_x := (ops.dims frame).1 / 2
                  let frame_center_y := (ops.dims frame).2 / 2
                  let angle_x : ℚ :=
                    (((center_x : ℚ) - (frame_center_x : ℚ)) /
                      (frame_center_x : ℚ)) * 30
                  let angle_y : ℚ :=
                    (((center_y : ℚ) - (frame_center_y : ℚ)) /
                      (frame_center_y : ℚ)) * 30
                  let head_x : ℚ := 300
                  let head_y : ℚ := 300
                  let total_angle_x := angle_x + (head_x - 300) / 10
                  let total_angle_y := angle_y + (head_y - 300) / 10
                  let pos : Position :=
                    { angle_x := total_angle_x
                      angle_y := total_angle_y
                      distance := distanceOf (blob.w * blob.h) }
                  let di : DetectionInfo :=
                    { timestamp := now
                      position := pos
                      object_size := (blob.w, blob.h)
                      center := (center_x, center_y)
                      frame_center := (frame_center_x, frame_center_y) }
                  ({ st1 with
                      object_position := some pos
                      last_detection_image :=
                        some (ops.encodeDetection frame
                                (blob.x, blob.y, blob.w, blob.h))
                      detection_info := some di
                      motion_detected := true }, some pos)
                else (st1, none)
              else (st1, none)

/-- Bounding-box area recorded in a detector state's `detection_info`
(`object_size.width * object_size.height`); `0` when absent. -/
def recordedArea {F G A : Type} (st : DetectorState F G A) : ℕ :=
  match st.detection_info with
  | some di => di.object_size.1 * di.object_size.2
  | none => 0

/-- Dead-reckoned position tracked during one maneuver
(`current_position = {'x': 0, 'y': 0, 'angle': 0}` plus its updates,
babyStep.py lines 261, 297, 330-331). -/
structure MovePose where
  x : ℝ
  y : ℝ
  angle : ℚ

/-- Initial value of the per-maneuver position tracker
(babyStep.py line 261). -/
def poseInit : MovePose := { x := 0, y := 0, angle := 0 }

/-- Turn-step count of the movement plan:
`min(abs(int(turn_angle / 10)), 4)` (babyStep.py line 252). -/
def turnStepsOf (turn_angle : ℚ) : ℕ :=
  min (pyTrunc (turn_angle / 10)).natAbs 4

/-- Turn direction of the movement plan:
`'right' if turn_angle > 0 else 'left'` (babyStep.py line 251). -/
def turnDirectionOf (turn_angle : ℚ) : Dir :=
  if 0 < turn_angle then Dir.right else Dir.left

/-- Conversion of degrees to radians (`math.radians`, babyStep.py
line 328). -/
noncomputable def radOf (a : ℚ) : ℝ := (a : ℝ) * Real.pi / 180

/-- Iterated body of the turn loop (babyStep.py lines 281-300): each
iteration issues one atomic 4-leg step cycle and then adds
`(turn_angle/steps) * (1 if direction == 'left' else -1)` to the tracked
angle.  `total` is the plan's step count (the loop runs with
`steps = total`). -/
def turnIter (turn_angle : ℚ) (total : ℕ) (d : Dir) :
    ℕ → MovePose → MovePose
  | 0, p => p
  | Nat.succ k, p =>
      turnIter turn_angle total d k
        { p with angle := p.angle + (turn_angle / (total : ℚ)) * dirSign d }

/-- Iterated body of the forward loop (babyStep.py lines 309-335): each
iteration issues one atomic 4-leg forward step cycle and then advances the
tracked position by `distance/5` along the current heading. -/
noncomputable def forwardIter (dist : ℝ) : ℕ → MovePose → MovePose
  | 0, p => p
  | Nat.succ k, p =>
      forwardIter dist k
        { p with
            x := p.x + dist / 5 * Real.cos (radOf p.angle)
            y := p.y + dist / 5 * Real.sin (radOf p.angle) }

/-- Result of one `move_to_object` maneuver: final detector state, final
tracked pose, and the number of executed turn / forward step cycles. -/
structure ManeuverResult (F G A : Type) where
  st : DetectorState F G A
  pose : MovePose
  turnCycles : ℕ
  forwardCycles : ℕ

/-- Pose produced by the turn phase followed by the forward phase of one
maneuver, starting from pose `p`: the turn loop runs only under the guard
`abs(turn_angle) > 5` (babyStep.py line 274), and the forward loop runs
`nForward` wall-clock-paced iterations (lines 309-335). -/
noncomputable def maneuverPose (turn_angle : ℚ) (dist : ℝ) (nForward : ℕ)
    (p : MovePose) : MovePose :=
  let steps := turnStepsOf turn_angle
  let d := turnDirectionOf turn_angle
  let p1 := if 5 < |turn_angle| then turnIter turn_angle steps d steps p
            else p
  forwardIter dist nForward p1

/-- One call of `move_to_object(position)` (babyStep.py lines 235-349) for a
non-`None` position.  Sleeps and the status publications to the host are
timing/IO effects; the number of forward step cycles executed by the 2.0 s
wall-clock loop is passed as `nForward`.  The detector's `is_moving` flag is
set for the duration of the maneuver and cleared at the end (lines 241,
345), after which the stored detection is cleared (lines 348-349). -/
noncomputable def move_to_object {F G A : Type} (pos : Position)
    (nForward : ℕ) (st : DetectorState F G A) : ManeuverResult F G A :=
  let turn_angle := pos.angle_x
  let dist := pos.distance
  let steps := turnStepsOf turn_angle
  { st := { st with is_moving := false,
                    last_detection_image := none,
                    detection_info := none }
    pose := maneuverPose turn_angle dist nForward poseInit
    turnCycles := if 5 < |turn_angle| then steps else 0
    forwardCycles := nForward }

/-- Outcome of one atomic 4-leg step cycle (`with servo_lock:` block issuing
`move.move(1..4, 35, direction)`, babyStep.py lines 282-291 and 310-319)
under fallible leg commands: the leg commands actually issued in order,
whether an exception propagated out of the block, and whether the servo
lock is still held afterwards. -/
structure CycleOutcome where
  issued : List ℕ
  raised : Bool
  gateHeld : Bool
deriving DecidableEq, Repr

/-- Sequential execution of leg commands with Python exception semantics:
the commands run in order and stop at the first one that raises; there is
no per-command handler in the cycle body. -/
def runLegs (fails : ℕ → Bool) : List ℕ → List ℕ × Bool
  | [] => ([], false)
  | l :: rest =>
      if fails l then ([l], true)
      else
        let r := runLegs fails rest
        (l :: r.1, r.2)

/-- Leg identifiers issued by one step cycle, in order (babyStep.py
lines 284-290). -/
def cycleLegs : List ℕ := [1, 2, 3, 4]

/-- One atomic step cycle under a fault model `fails` (which leg commands
raise).  The `with servo_lock:` statement releases the lock both on normal
exit and on an exception, so the gate is never left held. -/
def stepCycle (fails : ℕ → Bool) : CycleOutcome :=
  let r := runLegs fails cycleLegs
  { issued := r.1, raised := r.2, gateHeld := false }

/-- Lock events on the shared `servo_lock`. -/
inductive LockEv where
  | acq
  | rel
deriving DecidableEq, Repr

/-- Lock events of one `safe_look` call: its body is
`with servo_lock: ...` (babyStep.py lines 168-181). -/
def safeLookEvents : List LockEv := [LockEv.acq, LockEv.rel]

/-- Lock events of the head-repositioning block of `sequence_with_status`
(babyStep.py lines 407-420): the block holds `servo_lock` and, for each
non-zero head-delta axis, calls `safe_look`, which acquires `servo_lock`
again. -/
def headRepositionEvents (dx dy : ℤ) : List LockEv :=
  [LockEv.acq]
    ++ (if dx ≠ 0 then safeLookEvents else [])
    ++ (if dy ≠ 0 then safeLookEvents else [])
    ++ [LockEv.rel]

/-- Running maximum lock-nesting depth of an event sequence, starting from
depth `d` with running maximum `m`. -/
def nestAux : List LockEv → ℕ → ℕ → ℕ
  | [], _, m => m
  | LockEv.acq :: rest, d, m => nestAux rest (d + 1) (max m (d + 1))
  | LockEv.rel :: rest, d, m => nestAux rest (d - 1) m

/-- Maximum nesting depth of lock acquisitions in an event sequence; a value
above 1 means the same (non-reentrant) lock is acquired again while already
held. -/
def maxNesting (evs : List LockEv) : ℕ := nestAux evs 0 0

/-- Python values stored in the host's status/movement/head records.  The
records handled by `update_movement_info` and `update_head_movement` are
string-keyed dictionaries; nested values (position sub-dicts, timestamps,
plan records, targets, numbers) are carried opaquely. -/
inductive Val where
  | vnone
  | vstr (s : String)
  | vnum (q : ℚ)
  | vpos (x y angle : ℚ)
  | vrec (tag : String)
deriving DecidableEq, Repr

/-- String-keyed Python dictionary (insertion ordered). -/
abbrev Dict := List (String × Val)

/-- Dictionary lookup (`info[k]` / `k in info`): the value of the first
binding of key `k`, `none` when the key is absent. -/
def dictGet (d : Dict) (k : String) : Option Val :=
  match d with
  | [] => none
  | (k', v) :: rest => if k' = k then some v else dictGet rest k

/-- The `if k not in info: info[k] = v` idiom of `update_movement_info` and
`update_head_movement` (babyHost.py lines 1157-1164 and 1178-1183): a new
binding is added at the end only when the key is absent. -/
def setIfMissing (d : Dict) (k : String) (v : Val) : Dict :=
  match dictGet d k with
  | some _ => d
  | none => d ++ [(k, v)]

/-- Display string of a value (Python's string interpolation of the status
object into the history line). -/
def valStr (v : Val) : String :=
  match v with
  | Val.vnone => "None"
  | Val.vstr s => s
  | Val.vnum q => toString q
  | Val.vpos x y angle =>
      toString x ++ "," ++ toString y ++ "," ++ toString angle
  | Val.vrec tag => tag

/-- Timestamped history line `f"[{timestamp}] {status}"`
(babyHost.py line 1148). -/
def histLine (ts : String) (status : Val) : String :=
  "[" ++ ts ++ "] " ++ valStr status

/-- Status-holding state of the `VideoHost` (babyHost.py lines 37-40). -/
structure HostState where
  current_status : Val
  status_history : List String
  movement_info : Option Dict
  head_movement_info : Option Dict

/-- Initial host state (`VideoHost.__init__`, babyHost.py lines 37-40). -/
def hostInit : HostState :=
  { current_status := Val.vstr "Initializing..."
    status_history := []
    movement_info := none
    head_movement_info := none }

/-- One call of `VideoHost.update_status` (babyHost.py lines 1143-1149); the
wall-clock timestamp is passed as an argument. -/
def update_status (st : HostState) (ts : String) (status : Val) : HostState :=
  { st with
      status_history := st.status_history ++ [histLine ts status]
      current_status := status }

/-- Argument passed to `update_movement_info` / `update_head_movement`:
either a dictionary, or a non-dict object carried by its `str()` rendering
(babyHost.py lines 1153-1154 and 1174-1175). -/
inductive PyArg where
  | dict (d : Dict)
  | nondict (s : String)

/-- Wrapping of a non-dict argument: `info = {'status': str(info)}`. -/
def wrapArg (arg : PyArg) : Dict :=
  match arg with
  | PyArg.dict d => d
  | PyArg.nondict s => [("status", Val.vstr s)]

/-- Normalized movement record: `update_movement_info` fills in the missing
keys `status`, `position`, `progress`, `details` with their defaults
(babyHost.py lines 1153-1164). -/
def normalizeMovement (arg : PyArg) : Dict :=
  let info := wrapArg arg
  let info := setIfMissing info "status" (Val.vstr "Moving")
  let info := setIfMissing info "position" (Val.vpos 0 0 0)
  let info := setIfMissing info "progress" Val.vnone
  setIfMissing info "details" Val.vnone

/-- One call of `VideoHost.update_movement_info` (babyHost.py
lines 1151-1170): normalize the record, store it, and route its `status`
field through `update_status`. -/
def update_movement_info (st : HostState) (ts : String) (arg : PyArg) :
    HostState :=
  let info := normalizeMovement arg
  let st1 := { st with movement_info := some info }
  match dictGet info "status" with
  | some v => update_status st1 ts v
  | none => st1

/-- Normalized head-movement record: `update_head_movement` fills in the
missing keys `x`, `y`, `target` with their defaults (babyHost.py
lines 1172-1183); note that no default is provided for `status`. -/
def normalizeHead (arg : PyArg) : Dict :=
  let info := wrapArg arg
  let info := setIfMissing info "x" (Val.vnum 0)
  let info := setIfMissing info "y" (Val.vnum 0)
  setIfMissing info "target" Val.vnone

/-- One call of `VideoHost.update_head_movement` (babyHost.py
lines 1172-1189): normalize and store the record, then evaluate
`info['status']`.  The record is stored before that subscript runs; when the
key is absent the subscript raises `KeyError` (returned flag `true`) and the
status update does not happen. -/
def update_head_movement (st : HostState) (ts : String) (arg : PyArg) :
    HostState × Bool :=
  let info := normalizeHead arg
  let st1 := { st with head_movement_info := some info }
  match dictGet info "status" with
  | some v => (update_status st1 ts v, false)
  | none => (st1, true)

/-- Python slice `l[-n:]` for `n > 0`: the last `n` elements (the whole list
when it is shorter). -/
def pyLastSlice {α : Type} (l : List α) (n : ℕ) : List α :=
  l.drop (l.length - n)

/-- Snapshot returned by `VideoHost.get_status` (babyHost.py
lines 1121-1137). -/
structure StatusData where
  status : Val
  detection_info : Option DetectionInfo
  last_detection_image : Option String
  movement_info : Option Dict
  head_movement_info : Option Dict
  status_history : List String

/-- One call of `VideoHost.get_status` (babyHost.py lines 1121-1137); the
host's `detector` reference is passed as an argument.  The detection info
and detection image are copied together from the detector when a detection
record is present; the history field carries only the last 10 stored
lines. -/
def get_status {F G A : Type} (st : HostState)
    (detector : Option (DetectorState F G A)) : StatusData :=
  let base : StatusData :=
    { status := st.current_status
      detection_info := none
      last_detection_image := none
      movement_info := st.movement_info
      head_movement_info := st.head_movement_info
      status_history := pyLastSlice st.status_history 10 }
  match detector with
  | none => base
  | some det =>
      match det.detection_info with
      | some di =>
          { base with
              detection_info := some di
              last_detection_image := det.last_detection_image }
      | none => base

/-- Iterated status publication: `n` successive `update_status` calls. -/
def pubN (ts : String) (status : Val) : ℕ → HostState → HostState
  | 0, st => st
  | Nat.succ k, st => pubN ts status k (update_status st ts status)

/-- Trivial instantiation of the OpenCV interface over `Unit` carriers, with
a large stationary blob (area 2600, bounding box 120 x 100 at (100, 100))
present in every difference image, and 640 x 480 frames. -/
def opsBlob : CvOps Unit Unit Unit :=
  { decodeGrayBlur := fun _ => some ()
    dims := fun _ => (640, 480)
    toAvg := fun _ => ()
    accumulate := fun _ _ => ()
    largestBlob := fun _ _ =>
      some { area := 2600, x := 100, y := 100, w := 120, h := 100 }
    encodeDetection := fun _ _ => "img" }

/-- Detector state carrying stale detection data, used to exercise
`reset_detection`. -/
def stDirty : DetectorState Unit Unit Unit :=
  { avg := some ()
    last_motion := none
    motion_detected := true
    object_position := none
    last_detection_image := some "img0"
    detection_info := none
    is_moving := false
    scan_count := 7 }

/-- Detector state whose scan counter has reached the reseed threshold. -/
def stScan100 : DetectorState Unit Unit Unit :=
  { avg := some ()
    last_motion := none
    motion_detected := false
    object_position := none
    last_detection_image := none
    detection_info := none
    is_moving := false
    scan_count := 100 }

/-- Detector state with a warm background model and a fresh scan counter. -/
def stReady : DetectorState Unit Unit Unit :=
  { avg := some ()
    last_motion := none
    motion_detected := false
    object_position := none
    last_detection_image := none
    detection_info := none
    is_moving := false
    scan_count := 0 }

/-- Detector state after the successful detection of `opsBlob`'s blob from
`stReady`. -/
noncomputable def stDetected : DetectorState Unit Unit Unit :=
  (detect_motion opsBlob stReady (some ()) "t").1

/-- Position returned by the successful detection of `opsBlob`'s blob from
`stReady`. -/
noncomputable def posDetected : Position :=
  ((detect_motion opsBlob stReady (some ()) "t").2).getD
    { angle_x := 0, angle_y := 0, distance := 0 }

/-- Detection at bearing 37 degrees with unit relative distance. -/
noncomputable def pos37 : Position := { angle_x := 37, angle_y := 0, distance := 1 }

/-- Detection at bearing 3 degrees (inside the 5-degree dead zone) with unit
relative distance. -/
noncomputable def pos3 : Position := { angle_x := 3, angle_y := 0, distance := 1 }

/-- Fault model in which the leg-2 servo command raises and all other
commands succeed. -/
def failLeg2 : ℕ → Bool := fun l => l == 2

theorem pyTrunc_natAbs (q : ℚ) : (pyTrunc q).natAbs = (⌊|q|⌋).toNat := by
  unfold pyTrunc
  rcases le_or_lt 0 q with h | h
  · rw [if_pos h, abs_of_nonneg h]
    have h0 : 0 ≤ ⌊q⌋ := Int.floor_nonneg.mpr h
    omega
  · rw [if_neg (not_le.mpr h), abs_of_neg h]
    have hceil : ⌈q⌉ = -⌊-q⌋ := by
      rw [show q = -(-q) by ring, Int.ceil_neg, neg_neg]
    rw [hceil]
    have h0 : 0 ≤ ⌊-q⌋ := Int.floor_nonneg.mpr (by linarith)
    omega

theorem turnStepsOf_eq_floor (a : ℚ) :
    turnStepsOf a = min (⌊|a| / 10⌋).toNat 4 := by
  unfold turnStepsOf
  rw [pyTrunc_natAbs, abs_div]
  norm_num

theorem abs_ge_ten_of_turnSteps_pos (a : ℚ) (h : 0 < turnStepsOf a) :
    10 ≤ |a| := by
  unfold turnStepsOf at h
  have h1 : 1 ≤ (pyTrunc (a / 10)).natAbs := by omega
  have h2 : 1 ≤ |a / 10| := by
    unfold pyTrunc at h1
    rcases le_or_lt 0 (a / 10) with hq | hq
    · rw [if_pos hq] at h1
      have h0 : 0 ≤ ⌊a / 10⌋ := Int.floor_nonneg.mpr hq
      have : (1 : ℤ) ≤ ⌊a / 10⌋ := by omega
      rw [abs_of_nonneg hq]
      exact_mod_cast Int.le_floor.mp this
    · rw [if_neg (not_le.mpr hq)] at h1
      have h0 : ⌈a / 10⌉ ≤ (0 : ℤ) := Int.ceil_le.mpr (by push_cast; linarith)
      have : ⌈a / 10⌉ ≤ -1 := by omega
      have : a / 10 ≤ ((-1 : ℤ) : ℚ) := Int.ceil_le.mp this
      rw [abs_of_neg hq]
      push_cast at this
      linarith
  rw [abs_div, show |(10 : ℚ)| = 10 from by norm_num] at h2
  linarith

theorem turnIter_x (a : ℚ) (t : ℕ) (d : Dir) (n : ℕ) (p : MovePose) :
    (turnIter a t d n p).x = p.x := by
  induction n generalizing p with
  | zero => rfl
  | succ k ih => rw [turnIter, ih]

theorem turnIter_y (a : ℚ) (t : ℕ) (d : Dir) (n : ℕ) (p : MovePose) :
    (turnIter a t d n p).y = p.y := by
  induction n generalizing p with
  | zero => rfl
  | succ k ih => rw [turnIter, ih]

theorem turnIter_angle (a : ℚ) (t : ℕ) (d : Dir) (n : ℕ) (p : MovePose) :
    (turnIter a t d n p).angle =
      p.angle + (n : ℚ) * (a / (t : ℚ) * dirSign d) := by
  induction n generalizing p with
  | zero => simp [turnIter]
  | succ k ih =>
      rw [turnIter, ih]
      push_cast
      ring

theorem forwardIter_angle (dist : ℝ) (n : ℕ) (p : MovePose) :
    (forwardIter dist n p).angle = p.angle := by
  induction n generalizing p with
  | zero => rfl
  | succ k ih => rw [forwardIter, ih]

theorem forwardIter_x (dist : ℝ) (n : ℕ) (p : MovePose) :
    (forwardIter dist n p).x =
      p.x + (n : ℝ) * (dist / 5 * Real.cos (radOf p.angle)) := by
  induction n generalizing p with
  | zero => simp [forwardIter]
  | succ k ih =>
      rw [forwardIter, ih]
      push_cast
      ring

theorem forwardIter_y (dist : ℝ) (n : ℕ) (p : MovePose) :
    (forwardIter dist n p).y =
      p.y + (n : ℝ) * (dist / 5 * Real.sin (radOf p.angle)) := by
  induction n generalizing p with
  | zero => simp [forwardIter]
  | succ k ih =>
      rw [forwardIter, ih]
      push_cast
      ring

/-- C1: the movement plan is derived deterministically from a detection:
the planned turn-step count equals `min(floor(abs(bearing_x) / 10), 4)`,
the direction is `right` for positive and `left` for negative `bearing_x`,
no turn step cycle is executed when `abs(bearing_x)` is at most 5 degrees,
and a detection with `bearing_x = 37` yields exactly 3 turn steps. -/
theorem plan_turn_steps_and_direction (a : ℚ) :
    turnStepsOf a = min (⌊|a| / 10⌋).toNat 4 ∧
    (0 < a → turnDirectionOf a = Dir.right) ∧
    (a < 0 → turnDirectionOf a = Dir.left) ∧
    (|a| ≤ 5 → ∀ (F G A : Type) (pos : Position) (n : ℕ)
      (st : DetectorState F G A), pos.angle_x = a →
      (move_to_object pos n st).turnCycles = 0) ∧
    turnStepsOf 37 = 3 := by
  refine ⟨turnStepsOf_eq_floor a, ?_, ?_, ?_, ?_⟩
  · intro h
    simp [turnDirectionOf, h]
  · intro h
    simp [turnDirectionOf, not_lt.mpr (le_of_lt h)]
  · intro h F G A pos n st hpos
    simp only [move_to_object]
    rw [hpos, if_neg (not_lt.mpr h)]
  · rw [turnStepsOf_eq_floor]
    norm_num
    rfl

/-- Witness for C1 at concrete bearings 37, -37 and 3 degrees. -/
theorem plan_turn_steps_and_direction_spot :
    turnDirectionOf 37 = Dir.right ∧ turnDirectionOf (-37) = Dir.left ∧
    (move_to_object pos3 1 stDirty).turnCycles = 0 ∧
    turnStepsOf 37 = 3 :=
  ⟨(plan_turn_steps_and_direction 37).2.1 (by norm_num),
   (plan_turn_steps_and_direction (-37)).2.2.1 (by norm_num),
   (plan_turn_steps_and_direction 3).2.2.2.1 (by norm_num)
     Unit Unit Unit pos3 1 stDirty rfl,
   (plan_turn_steps_and_direction 37).2.2.2.2⟩

/-- C2: a detect call on a detector with no background model (freshly
constructed or just reset) always returns `None`, and — when a decodable
frame is supplied and the detector is not suspended — seeds the background
model from that frame. -/
theorem detector_cold_start (F G A : Type) (ops : CvOps F G A)
    (st : DetectorState F G A) (frame? : Option F) (now : String)
    (h : st.avg = none) :
    (detect_motion ops st frame? now).2 = none ∧
    (∀ f g, frame? = some f → st.is_moving = false →
      ops.decodeGrayBlur f = some g →
      detect_motion ops st frame? now =
        ({ st with avg := some (ops.toAvg g) }, none)) := by
  constructor
  · by_cases hm : st.is_moving
    · simp [detect_motion, hm]
    · cases frame? with
      | none => simp [detect_motion, hm]
      | some f =>
          cases hd : ops.decodeGrayBlur f with
          | none => simp [detect_motion, hm, hd]
          | some g => simp [detect_motion, hm, hd, h]
  · intro f g hf hm hd
    subst hf
    simp [detect_motion, hm, hd, h]

/-- Witness for C2: a dirty detector is reset; the next detect call on a
decodable frame seeds the model and returns `None`. -/
theorem detector_cold_start_spot :
    (reset_detection stDirty).avg = none ∧
    (detect_motion opsBlob (reset_detection stDirty) (some ()) "t").2 =
      none ∧
    detect_motion opsBlob (reset_detection stDirty) (some ()) "t" =
      ({ reset_detection stDirty with avg := some () }, none) := by
  have h := detector_cold_start Unit Unit Unit opsBlob
    (reset_detection stDirty) (some ()) "t" rfl
  exact ⟨rfl, h.1, h.2 () () rfl rfl rfl⟩

/-- C3: when the scan counter has reached its threshold (100 scans since the
model was last seeded or reset), the detect call reseeds the background
model from the current frame, zeroes the counter, and returns `None` —
regardless of the blob the contour extraction would report (the statement
is universally quantified over `ops`, hence over any blob). -/
theorem detector_periodic_reseed (F G A : Type) (ops : CvOps F G A)
    (st : DetectorState F G A) (f : F) (g : G) (a : A) (now : String)
    (hm : st.is_moving = false) (hd : ops.decodeGrayBlur f = some g)
    (ha : st.avg = some a) (hc : 100 ≤ st.scan_count) :
    detect_motion ops st (some f) now =
      ({ st with avg := some (ops.toAvg g), scan_count := 0 }, none) := by
  simp only [detect_motion, hm, Bool.false_eq_true, if_false, hd, ha]
  rw [if_pos (by omega : 100 < st.scan_count + 1)]

/-- Witness for C3: a detector at scan count 100 with a large stationary
blob present (area 2600, box 120 x 100) still reseeds and returns `None`. -/
theorem detector_periodic_reseed_spot :
    (opsBlob.largestBlob () ()).isSome = true ∧
    detect_motion opsBlob stScan100 (some ()) "t" =
      ({ stScan100 with avg := some (), scan_count := 0 }, none) :=
  ⟨rfl, detector_periodic_reseed Unit Unit Unit opsBlob stScan100 () () ()
    "t" rfl rfl rfl (le_refl 100)⟩

/-- C4: every successful detection reports `distance = 1000 / sqrt(w * h)`
for the bounding box recorded with it, and the distance estimate is
strictly antitone in the blob area. -/
theorem detection_distance_inverse_sqrt :
    (∀ (F G A : Type) (ops : CvOps F G A) (st st' : DetectorState F G A)
      (frame? : Option F) (now : String) (pos : Position),
      detect_motion ops st frame? now = (st', some pos) →
      (st'.detection_info).isSome = true ∧
      pos.distance = distanceOf (recordedArea st')) ∧
    (∀ m n : ℕ, 0 < m → m < n → distanceOf n < distanceOf m) := by
  constructor
  · intro F G A ops st st' frame? now pos h
    simp only [detect_motion] at h
    repeat' split at h
    any_goals exact Option.noConfusion (congrArg Prod.snd h)
    injection h with h1 h2
    injection h2 with h2
    subst h1
    subst h2
    refine ⟨rfl, ?_⟩
    simp [recordedArea]
  · intro m n hm hmn
    unfold distanceOf
    have h0 : (0 : ℝ) < Real.sqrt m := Real.sqrt_pos.mpr (by exact_mod_cast hm)
    have h1 : Real.sqrt m < Real.sqrt n :=
      Real.sqrt_lt_sqrt (by positivity) (by exact_mod_cast hmn)
    exact div_lt_div_of_pos_left (by norm_num) h0 h1

/-- Witness for C4: the concrete detection of a 120 x 100 blob reports
`distanceOf 12000`, and a blob of area 2 is reported closer than a blob of
area 1. -/
theorem detection_distance_inverse_sqrt_spot :
    detect_motion opsBlob stReady (some ()) "t" =
      (stDetected, some posDetected) ∧
    (stDetected.detection_info).isSome = true ∧
    posDetected.distance = distanceOf (recordedArea stDetected) ∧
    0 < 1 ∧ 1 < 2 ∧ distanceOf 2 < distanceOf 1 := by
  have heq : detect_motion opsBlob stReady (some ()) "t" =
      (stDetected, some posDetected) := rfl
  have h := detection_distance_inverse_sqrt.1 Unit Unit Unit opsBlob stReady
    stDetected (some ()) "t" posDetected heq
  exact ⟨heq, h.1, h.2, Nat.one_pos, Nat.one_lt_two,
    detection_distance_inverse_sqrt.2 1 2 Nat.one_pos Nat.one_lt_two⟩

theorem forward_displacement_ne (d : ℝ) (n : ℕ) (r : ℝ) (hn : 1 ≤ n)
    (hd : 0 < d) (hx : (n : ℝ) * (d / 5 * Real.cos r) = 0)
    (hy : (n : ℝ) * (d / 5 * Real.sin r) = 0) : False := by
  have hn0 : ((n : ℝ)) ≠ 0 := Nat.cast_ne_zero.mpr (by omega)
  have hd5 : d / 5 ≠ 0 := by positivity
  have hcos : Real.cos r = 0 := by
    rcases mul_eq_zero.mp hx with h | h
    · exact absurd h hn0
    · rcases mul_eq_zero.mp h with h | h
      · exact absurd h hd5
      · exact h
  have hsin : Real.sin r = 0 := by
    rcases mul_eq_zero.mp hy with h | h
    · exact absurd h hn0
    · rcases mul_eq_zero.mp h with h | h
      · exact absurd h hd5
      · exact h
  have hone := Real.sin_sq_add_cos_sq r
  rw [hcos, hsin] at hone
  norm_num at hone

theorem maneuverPose_eq (a : ℚ) (d : ℝ) (n : ℕ) (p : MovePose) :
    maneuverPose a d n p =
      forwardIter d n
        (if 5 < |a| then
          turnIter a (turnStepsOf a) (turnDirectionOf a) (turnStepsOf a) p
        else p) := rfl

/-- C5: after one complete `move_to_object` maneuver the moving guard is
false, the stored detection info and detection image are cleared, and the
tracked pose has moved away from its initial value whenever the plan has a
positive turn-step count or a positive distance (the 2.0 s forward loop
executes at least one step cycle, hence `1 ≤ n`). -/
theorem maneuver_completion (F G A : Type) (pos : Position) (n : ℕ)
    (st : DetectorState F G A) (hn : 1 ≤ n)
    (hplan : 0 < turnStepsOf pos.angle_x ∨ 0 < pos.distance) :
    (move_to_object pos n st).st.is_moving = false ∧
    (move_to_object pos n st).st.detection_info = none ∧
    (move_to_object pos n st).st.last_detection_image = none ∧
    (move_to_object pos n st).pose ≠ poseInit := by
  refine ⟨rfl, rfl, rfl, ?_⟩
  have hpose : (move_to_object pos n st).pose =
      maneuverPose pos.angle_x pos.distance n poseInit := rfl
  rw [hpose, maneuverPose_eq]
  rcases hplan with hsteps | hdist
  · have h10 : 10 ≤ |pos.angle_x| := abs_ge_ten_of_turnSteps_pos _ hsteps
    have h5 : (5 : ℚ) < |pos.angle_x| := by linarith
    rw [if_pos h5]
    intro hcontra
    have hangle := congrArg MovePose.angle hcontra
    rw [forwardIter_angle, turnIter_angle] at hangle
    have ht : ((turnStepsOf pos.angle_x : ℚ)) ≠ 0 :=
      Nat.cast_ne_zero.mpr (Nat.pos_iff_ne_zero.mp hsteps)
    have ha0 : pos.angle_x ≠ 0 := by
      intro h0
      rw [h0] at h10
      norm_num at h10
    have hsign : dirSign (turnDirectionOf pos.angle_x) ≠ 0 := by
      unfold turnDirectionOf dirSign
      by_cases hc : 0 < pos.angle_x <;> simp [hc]
    have hX : ((turnStepsOf pos.angle_x : ℚ)) *
        (pos.angle_x / (turnStepsOf pos.angle_x : ℚ) *
          dirSign (turnDirectionOf pos.angle_x)) = 0 := by
      have h0 : poseInit.angle = 0 := rfl
      rw [h0] at hangle
      linarith
    rcases mul_eq_zero.mp hX with h | h
    · exact absurd h ht
    · rcases mul_eq_zero.mp h with h | h
      · rcases div_eq_zero_iff.mp h with h' | h'
        · exact absurd h' ha0
        · exact absurd h' ht
      · exact absurd h hsign
  · intro hcontra
    by_cases h5 : (5 : ℚ) < |pos.angle_x|
    · rw [if_pos h5] at hcontra
      have hx := congrArg MovePose.x hcontra
      have hy := congrArg MovePose.y hcontra
      rw [forwardIter_x, turnIter_x] at hx
      rw [forwardIter_y, turnIter_y] at hy
      simp only [poseInit] at hx hy
      rw [zero_add] at hx hy
      exact forward_displacement_ne _ n _ hn hdist hx hy
    · rw [if_neg h5] at hcontra
      have hx := congrArg MovePose.x hcontra
      have hy := congrArg MovePose.y hcontra
      rw [forwardIter_x] at hx
      rw [forwardIter_y] at hy
      simp only [poseInit] at hx hy
      rw [zero_add] at hx hy
      exact forward_displacement_ne _ n _ hn hdist hx hy

/-- Witness for C5 at the 37-degree unit-distance detection with one
forward step cycle. -/
theorem maneuver_completion_spot :
    1 ≤ 1 ∧ 0 < turnStepsOf pos37.angle_x ∧
    (move_to_object pos37 1 stDirty).st.is_moving = false ∧
    (move_to_object pos37 1 stDirty).st.detection_info = none ∧
    (move_to_object pos37 1 stDirty).st.last_detection_image = none ∧
    (move_to_object pos37 1 stDirty).pose ≠ poseInit := by
  have hsteps : 0 < turnStepsOf pos37.angle_x := by
    show 0 < turnStepsOf 37
    rw [turnStepsOf_eq_floor]
    norm_num
  have h := maneuver_completion Unit Unit Unit pos37 1 stDirty (le_refl 1)
    (Or.inl hsteps)
  exact ⟨le_refl 1, hsteps, h.1, h.2.1, h.2.2.1, h.2.2.2⟩

/-- C6: contrary to the claim, the head-repositioning block of
`sequence_with_status` does acquire the servo lock a second time from a
region that already holds it: with a non-zero head delta (here `dx = 3`)
the lock-event nesting depth reaches 2 (the outer `with servo_lock:` at
line 407 plus the `with servo_lock:` inside the `safe_look` it calls),
while with zero deltas it stays at 1. -/
theorem head_reposition_nested_lock :
    maxNesting (headRepositionEvents 3 0) = 2 ∧
    1 < maxNesting (headRepositionEvents 3 0) ∧
    maxNesting (headRepositionEvents 0 0) = 1 := by
  decide

/-- C7 counterexample: with the leg-2 command raising, the remaining
commands of the cycle (legs 3 and 4) do not execute and the exception
propagates out of the step cycle, refuting per-command fault tolerance. -/
theorem step_cycle_leg_failure_cex :
    (stepCycle failLeg2).issued = [1, 2] ∧
    (stepCycle failLeg2).raised = true ∧
    3 ∉ (stepCycle failLeg2).issued ∧
    4 ∉ (stepCycle failLeg2).issued := by
  decide

/-- C7 (amended): a leg-command failure inside a step cycle is not handled
per command: every leg after the first failing one is skipped and the
exception propagates out of the cycle ("raised"); a fault-free cycle issues
all four leg commands; in every case the `with`-block releases the servo
lock, so the gate is never left held by a failing cycle. -/
theorem step_cycle_failure_containment (fails : ℕ → Bool) :
    (stepCycle fails).gateHeld = false ∧
    ((∀ l ∈ cycleLegs, fails l = false) →
      stepCycle fails =
        { issued := cycleLegs, raised := false, gateHeld := false }) ∧
    ((∃ l ∈ cycleLegs, fails l = true) → (stepCycle fails).raised = true) ∧
    (∀ k ∈ cycleLegs, (∃ j ∈ cycleLegs, fails j = true ∧ j < k) →
      k ∉ (stepCycle fails).issued) := by
  cases h1 : fails 1 <;> cases h2 : fails 2 <;> cases h3 : fails 3 <;>
    cases h4 : fails 4 <;>
    simp [stepCycle, runLegs, cycleLegs, h1, h2, h3, h4]

/-- Witness for the amended C7 at the leg-2 fault model. -/
theorem step_cycle_failure_containment_spot :
    (stepCycle failLeg2).gateHeld = false ∧
    (stepCycle failLeg2).raised = true ∧
    3 ∉ (stepCycle failLeg2).issued := by
  have h := step_cycle_failure_containment failLeg2
  exact ⟨h.1, h.2.2.1 ⟨2, by decide, by decide⟩,
    h.2.2.2 3 (by decide) ⟨2, by decide, by decide, by decide⟩⟩

theorem pose37_final_angle :
    (maneuverPose pos37.angle_x pos37.distance 1 poseInit).angle = -37 := by
  have hsteps : turnStepsOf (37 : ℚ) = 3 := by
    rw [turnStepsOf_eq_floor]
    norm_num
    rfl
  rw [maneuverPose_eq, forwardIter_angle]
  simp only [pos37]
  rw [if_pos (by norm_num : (5 : ℚ) < |(37 : ℚ)|), turnIter_angle, hsteps]
  norm_num [turnDirectionOf, dirSign, poseInit]

/-- C8 counterexample: the tracked pose of every `move_to_object` execution
starts from `poseInit = (0, 0, 0)` (babyStep.py line 261), while the
execution for a 37-degree detection ends with angle -37; hence the pose at
the start of a later execution differs from the pose at the end of this
earlier one — accumulated pose updates are discarded between maneuvers. -/
theorem pose_not_persistent_cex :
    (move_to_object pos37 1 stDirty).pose.angle = -37 ∧
    poseInit.angle = 0 ∧
    (move_to_object pos37 1 stDirty).pose.angle ≠ poseInit.angle := by
  have h : (move_to_object pos37 1 stDirty).pose.angle = -37 := by
    have hpose : (move_to_object pos37 1 stDirty).pose =
        maneuverPose pos37.angle_x pos37.distance 1 poseInit := rfl
    rw [hpose, pose37_final_angle]
  refine ⟨h, rfl, ?_⟩
  rw [h]
  norm_num [poseInit]

/-- C8 (amended): the dead-reckoned pose is a per-maneuver accumulator, not
a process-lifetime one: every execution of `move_to_object` computes its
pose trajectory from the fixed initial pose `(0, 0, 0)`, and there are
maneuvers (for example the 37-degree detection) whose final pose differs
from that initial value, so pose updates are discarded between maneuvers
rather than carried over. -/
theorem pose_reset_each_maneuver :
    (∀ (F G A : Type) (pos : Position) (n : ℕ) (st : DetectorState F G A),
      (move_to_object pos n st).pose =
        maneuverPose pos.angle_x pos.distance n poseInit) ∧
    poseInit = { x := 0, y := 0, angle := 0 } ∧
    (maneuverPose pos37.angle_x pos37.distance 1 poseInit).angle ≠
      poseInit.angle := by
  refine ⟨fun F G A pos n st => rfl, rfl, ?_⟩
  rw [pose37_final_angle]
  norm_num [poseInit]

theorem pubN_history_length (ts : String) (v : Val) (n : ℕ)
    (st : HostState) :
    (pubN ts v n st).status_history.length =
      st.status_history.length + n := by
  induction n generalizing st with
  | zero => rfl
  | succ k ih =>
      rw [pubN, ih]
      simp only [update_status, List.length_append, List.length_singleton]
      omega

theorem pyLastSlice_length_le {α : Type} (l : List α) (n : ℕ) :
    (pyLastSlice l n).length ≤ n := by
  unfold pyLastSlice
  rw [List.length_drop]
  omega

/-- C9 counterexample: eleven publishes on a fresh host leave eleven lines
in the stored status history — the stored history is not bounded by 10
after each publish. -/
theorem status_history_unbounded_cex :
    (pubN "t" (Val.vstr "s") 11 hostInit).status_history.length = 11 ∧
    ¬((pubN "t" (Val.vstr "s") 11 hostInit).status_history.length ≤ 10) := by
  have h : (pubN "t" (Val.vstr "s") 11 hostInit).status_history.length =
      11 := by
    rw [pubN_history_length]
    rfl
  exact ⟨h, by rw [h]; omega⟩

/-- C9 (amended): every publish appends exactly one timestamped line to the
stored status history, which itself grows without bound; the bounded-ring
behavior lives in the snapshot view: `get_status` returns only the last 10
stored lines, so every snapshot's history holds at most 10 entries. -/
theorem status_history_append_and_view :
    (∀ (st : HostState) (ts : String) (v : Val),
      (update_status st ts v).status_history =
        st.status_history ++ [histLine ts v]) ∧
    (∀ (F G A : Type) (st : HostState)
      (det : Option (DetectorState F G A)),
      (get_status st det).status_history =
        pyLastSlice st.status_history 10 ∧
      (get_status st det).status_history.length ≤ 10) := by
  refine ⟨fun st ts v => rfl, fun F G A st det => ?_⟩
  have hv : (get_status st det).status_history =
      pyLastSlice st.status_history 10 := by
    cases det with
    | none => rfl
    | some d => cases h : d.detection_info <;> simp [get_status, h]
  exact ⟨hv, hv ▸ pyLastSlice_length_le _ 10⟩

theorem dictGet_append (d1 d2 : Dict) (k : String) :
    dictGet (d1 ++ d2) k =
      match dictGet d1 k with
      | some v => some v
      | none => dictGet d2 k := by
  induction d1 with
  | nil => rfl
  | cons p rest ih =>
      obtain ⟨k', v⟩ := p
      by_cases h : k' = k <;> simp [dictGet, h, ih]

theorem dictGet_setIfMissing_same (d : Dict) (k : String) (v : Val) :
    dictGet (setIfMissing d k v) k = some ((dictGet d k).getD v) := by
  unfold setIfMissing
  cases h : dictGet d k with
  | some w => simp [h]
  | none => rw [dictGet_append, h]; simp [dictGet]

theorem dictGet_setIfMissing_other (d : Dict) (k k' : String) (v : Val)
    (h : k ≠ k') : dictGet (setIfMissing d k v) k' = dictGet d k' := by
  unfold setIfMissing
  cases hd : dictGet d k with
  | some w => rfl
  | none =>
      rw [dictGet_append]
      cases hg : dictGet d k' <;> simp [hg, dictGet, h]

/-- C10 counterexample: calling the head-movement publisher with an empty
dictionary stores a record carrying the x/y/target defaults but no `status`
key, the `info['status']` subscript raises (`KeyError`), and the
broadcaster's current status text is left unchanged — so the current status
is not always set to the record's status field. -/
theorem head_update_missing_status_cex :
    (update_head_movement hostInit "t" (PyArg.dict [])).2 = true ∧
    dictGet
      (((update_head_movement hostInit "t"
          (PyArg.dict [])).1.head_movement_info).getD [])
      "status" = none ∧
    (update_head_movement hostInit "t" (PyArg.dict [])).1.current_status =
      hostInit.current_status := by
  exact ⟨rfl, rfl, rfl⟩

theorem normalizeMovement_status (arg : PyArg) :
    dictGet (normalizeMovement arg) "status" =
      some ((dictGet (wrapArg arg) "status").getD (Val.vstr "Moving")) := by
  unfold normalizeMovement
  rw [dictGet_setIfMissing_other _ _ _ _ (by decide),
      dictGet_setIfMissing_other _ _ _ _ (by decide),
      dictGet_setIfMissing_other _ _ _ _ (by decide),
      dictGet_setIfMissing_same]

theorem normalizeHead_status (arg : PyArg) :
    dictGet (normalizeHead arg) "status" =
      dictGet (wrapArg arg) "status" := by
  unfold normalizeHead
  rw [dictGet_setIfMissing_other _ _ _ _ (by decide),
      dictGet_setIfMissing_other _ _ _ _ (by decide),
      dictGet_setIfMissing_other _ _ _ _ (by decide)]

/-- C10 (amended): both publishers normalize their argument — a non-dict
argument is wrapped as a status-only record; the stored movement record
always carries `status`, `position`, `progress`, `details` with defaults
`Moving`, `(0,0,0)`, `None`, `None` for missing keys, and the current
status is set to the movement record's status; the stored head record
always carries `x`, `y`, `target` with defaults `0`, `0`, `None`, but no
`status` default is supplied: the current status is set to the head
record's status only when that key is present, and when it is absent the
call raises `KeyError` after storing the record, leaving the current
status unchanged. -/
theorem publish_record_normalization :
    (∀ (s : String), wrapArg (PyArg.nondict s) = [("status", Val.vstr s)]) ∧
    (∀ (st : HostState) (ts : String) (arg : PyArg),
      (update_movement_info st ts arg).movement_info =
        some (normalizeMovement arg) ∧
      dictGet (normalizeMovement arg) "status" =
        some ((dictGet (wrapArg arg) "status").getD (Val.vstr "Moving")) ∧
      dictGet (normalizeMovement arg) "position" =
        some ((dictGet (wrapArg arg) "position").getD (Val.vpos 0 0 0)) ∧
      dictGet (normalizeMovement arg) "progress" =
        some ((dictGet (wrapArg arg) "progress").getD Val.vnone) ∧
      dictGet (normalizeMovement arg) "details" =
        some ((dictGet (wrapArg arg) "details").getD Val.vnone) ∧
      (update_movement_info st ts arg).current_status =
        (dictGet (wrapArg arg) "status").getD (Val.vstr "Moving")) ∧
    (∀ (st : HostState) (ts : String) (arg : PyArg),
      (update_head_movement st ts arg).1.head_movement_info =
        some (normalizeHead arg) ∧
      dictGet (normalizeHead arg) "x" =
        some ((dictGet (wrapArg arg) "x").getD (Val.vnum 0)) ∧
      dictGet (normalizeHead arg) "y" =
        some ((dictGet (wrapArg arg) "y").getD (Val.vnum 0)) ∧
      dictGet (normalizeHead arg) "target" =
        some ((dictGet (wrapArg arg) "target").getD Val.vnone) ∧
      (update_head_movement st ts arg).2 =
        (dictGet (wrapArg arg) "status").isNone ∧
      (update_head_movement st ts arg).1.current_status =
        (dictGet (wrapArg arg) "status").getD st.current_status) := by
  refine ⟨fun s => rfl, fun st ts arg => ?_, fun st ts arg => ?_⟩
  · have hstat := normalizeMovement_status arg
    refine ⟨?_, hstat, ?_, ?_, ?_, ?_⟩
    · simp only [update_movement_info]
      rw [hstat]
      rfl
    · unfold normalizeMovement
      rw [dictGet_setIfMissing_other _ _ _ _ (by decide),
          dictGet_setIfMissing_other _ _ _ _ (by decide),
          dictGet_setIfMissing_same,
          dictGet_setIfMissing_other _ _ _ _ (by decide)]
    · unfold normalizeMovement
      rw [dictGet_setIfMissing_other _ _ _ _ (by decide),
          dictGet_setIfMissing_same,
          dictGet_setIfMissing_other _ _ _ _ (by decide),
          dictGet_setIfMissing_other _ _ _ _ (by decide)]
    · unfold normalizeMovement
      rw [dictGet_setIfMissing_same,
          dictGet_setIfMissing_other _ _ _ _ (by decide),
          dictGet_setIfMissing_other _ _ _ _ (by decide),
          dictGet_setIfMissing_other _ _ _ _ (by decide)]
    · simp only [update_movement_info]
      rw [hstat]
      rfl
  · have hstat := normalizeHead_status arg
    refine ⟨?_, ?_, ?_, ?_, ?_, ?_⟩
    · simp only [update_head_movement]
      rw [hstat]
      cases hs : dictGet (wrapArg arg) "status" <;> rfl
    · unfold normalizeHead
      rw [dictGet_setIfMissing_other _ _ _ _ (by decide),
          dictGet_setIfMissing_other _ _ _ _ (by decide),
          dictGet_setIfMissing_same]
    · unfold normalizeHead
      rw [dictGet_setIfMissing_other _ _ _ _ (by decide),
          dictGet_setIfMissing_same,
          dictGet_setIfMissing_other _ _ _ _ (by decide)]
    · unfold normalizeHead
      rw [dictGet_setIfMissing_same,
          dictGet_setIfMissing_other _ _ _ _ (by decide),
          dictGet_setIfMissing_other _ _ _ _ (by decide)]
    · simp only [update_head_movement]
      rw [hstat]
      cases hs : dictGet (wrapArg arg) "status" <;> rfl
    · simp only [update_head_movement]
      rw [hstat]
      cases hs : dictGet (wrapArg arg) "status" <;> rfl
